import Mathlib

/-!
Shallow embedding of the mining-api reliability core:
`src/backend/app/core/circuit_breaker.py` (class `CircuitBreaker`),
`src/core/data_quality.py` (class `DataQualityMonitor`) and
`src/core/ml_integration.py` (class `MLEnsembleManager`),
with theorems checking the specification's claims about them.

Python floats are modelled as rationals (ℚ); the claims under check involve
only exact decimal arithmetic.  `time.time()` values are passed explicitly
as a `now : ℚ` parameter.  Python exceptions are modelled as explicit
result constructors.
-/

namespace MiningApi

/-! ## Circuit breaker (`src/backend/app/core/circuit_breaker.py`) -/

/-- `CircuitState` enum: CLOSED / OPEN / HALF_OPEN. -/
inductive CircuitState where
  | closed
  | opened
  | halfOpen
  deriving DecidableEq, Repr

/-- State of one `CircuitBreaker` instance together with its configuration
(`CircuitBreakerConfig`: `failure_threshold`, `timeout`, `success_threshold`)
and the mutable attributes the claims refer to.  `statsTotalFailures` is the
`self.stats['total_failures']` counter, `totalFailures` is
`self.total_failures`; the two are incremented at different places in the
source.  Fields not involved in any claim (`last_success_time`,
`total_successes`, the remaining `stats` entries) are omitted. -/
structure Breaker where
  failureThreshold : Nat
  timeout : ℚ
  successThreshold : Nat
  state : CircuitState
  failureCount : Nat
  successCount : Nat
  lastFailureTime : Option ℚ
  totalRequests : Nat
  totalFailures : Nat
  statsTotalFailures : Nat
  deriving DecidableEq, Repr

namespace Breaker

/-- `CircuitBreaker._should_attempt_reset`:
`time.time() - self.last_failure_time >= self.config.timeout`,
with `True` when `last_failure_time is None`. -/
def shouldAttemptReset (b : Breaker) (now : ℚ) : Bool :=
  match b.lastFailureTime with
  | none => true
  | some t => now - t ≥ b.timeout

/-- `CircuitBreaker._open_circuit`: sets state OPEN and zeroes only
`success_count` (the `circuit_opens` stat is not modelled). -/
def openCircuit (b : Breaker) : Breaker :=
  { b with state := .opened, successCount := 0 }

/-- `CircuitBreaker._close_circuit`: sets state CLOSED and zeroes both
`failure_count` and `success_count`. -/
def closeCircuit (b : Breaker) : Breaker :=
  { b with state := .closed, failureCount := 0, successCount := 0 }

/-- `CircuitBreaker._on_success`: in HALF_OPEN increments `success_count`
and closes the circuit once it reaches `success_threshold`; in CLOSED
resets `failure_count` to 0; otherwise no state change. -/
def onSuccess (b : Breaker) : Breaker :=
  match b.state with
  | .halfOpen =>
      let b' := { b with successCount := b.successCount + 1 }
      if b'.successCount ≥ b'.successThreshold then closeCircuit b' else b'
  | .closed => { b with failureCount := 0 }
  | .opened => b

/-- `CircuitBreaker._on_failure`: records `last_failure_time`, increments
`failure_count` and both total-failure counters; in HALF_OPEN any failure
opens the circuit; in CLOSED the circuit opens once `failure_count`
reaches `failure_threshold`. -/
def onFailure (b : Breaker) (now : ℚ) : Breaker :=
  let b' := { b with
    lastFailureTime := some now
    failureCount := b.failureCount + 1
    totalFailures := b.totalFailures + 1
    statsTotalFailures := b.statsTotalFailures + 1 }
  match b'.state with
  | .halfOpen => openCircuit b'
  | .closed =>
      if b'.failureCount ≥ b'.failureThreshold then openCircuit b' else b'
  | .opened => b'

/-- The OPEN-state check at the top of `CircuitBreaker.call` (lines 59-66):
if the state is OPEN then either transition to HALF_OPEN (when
`_should_attempt_reset()`) and allow, or count a failure in
`stats['total_failures']` and deny (the `raise Exception(... is OPEN)`
branch).  Any other state allows unchanged.  Returns (allowed?, breaker). -/
def allowCheck (b : Breaker) (now : ℚ) : Bool × Breaker :=
  if b.state = .opened then
    if b.shouldAttemptReset now then
      (true, { b with state := .halfOpen })
    else
      (false, { b with statsTotalFailures := b.statsTotalFailures + 1 })
  else
    (true, b)

/-- Outcome of `CircuitBreaker.call`: the wrapped function's value, the
fast-fail `Exception("... is OPEN")`, or the wrapped function's own
exception re-raised after `_on_failure`. -/
inductive CallResult (α : Type) where
  | ok (a : α)
  | openDenied
  | funcFailed
  deriving DecidableEq, Repr

/-- `CircuitBreaker.call`: increments `total_requests`, performs the OPEN
check, then runs the wrapped function.  `outcome = some a` models the
function returning `a`; `outcome = none` models it raising the expected
exception type (the ml/database/external breakers are all configured with
`expected_exception=Exception`, so every exception is expected; the
"unexpected exception" branch is unreachable for them and not modelled). -/
def call (b : Breaker) (now : ℚ) (outcome : Option α) : CallResult α × Breaker :=
  let b₀ := { b with totalRequests := b.totalRequests + 1 }
  let (allowed, b₁) := allowCheck b₀ now
  if allowed then
    match outcome with
    | some a => (.ok a, onSuccess b₁)
    | none => (.funcFailed, onFailure b₁ now)
  else
    (.openDenied, b₁)

/-- `n` consecutive `_on_failure` calls (the recorded time does not affect
counters or state, so a fixed `now` is used). -/
def failN (b : Breaker) (now : ℚ) : Nat → Breaker
  | 0 => b
  | n + 1 => onFailure (failN b now n) now

/-- `n` consecutive `_on_success` calls. -/
def succN (b : Breaker) : Nat → Breaker
  | 0 => b
  | n + 1 => onSuccess (succN b n)

end Breaker

/-! ## Data quality monitor (`src/core/data_quality.py`) -/

/-- A telemetry reading, restricted to the sensor keys the monitor reads
(`temperature`, `vibration`, `oil_pressure`, `rpm`, `fuel_level`); an
absent dict key is `none`. -/
structure Reading where
  temperature : Option ℚ
  vibration : Option ℚ
  oil_pressure : Option ℚ
  rpm : Option ℚ
  fuel_level : Option ℚ
  deriving DecidableEq, Repr

/-- A `QualityIssue`, restricted to the fields the claims mention:
`issue_type` and `severity` are the literal strings the source constructs
(`'impossible_temperature'`, `'critical'`, ...); `confidence` defaults
to 1.0 in the dataclass.  The `machine_id`, `description`, `value`,
`expected_range` and `timestamp` fields do not affect any claim and are
omitted. -/
structure QualityIssue where
  issue_type : String
  severity : String
  confidence : ℚ
  deriving DecidableEq, Repr

/-- The running statistics dict kept per sensor by `_update_statistics`:
keys `mean`, `std`, `min`, `max`, `count`.  All five keys are written
together, so a populated dict is one value of this structure and an empty
dict is `none` at the use sites. -/
structure SensorStats where
  mean : ℚ
  std : ℚ
  smin : ℚ
  smax : ℚ
  count : Nat
  deriving DecidableEq, Repr

/-- `MachineDataProfile`, restricted to the per-sensor stats dicts and the
sample count (`machine_id`/`last_updated` omitted). -/
structure MachineDataProfile where
  temperature_stats : Option SensorStats
  vibration_stats : Option SensorStats
  oil_pressure_stats : Option SensorStats
  rpm_stats : Option SensorStats
  sample_count : Nat
  deriving DecidableEq, Repr

namespace Monitor

/-- One range check of `_check_impossible_values`: emit a critical issue
when the value is present and outside `[lo, hi]`. -/
def impossibleIssue (name : String) (lo hi : ℚ) (v : Option ℚ) : List QualityIssue :=
  match v with
  | none => []
  | some x => if x < lo ∨ x > hi then [⟨name, "critical", 1⟩] else []

/-- `DataQualityMonitor._check_impossible_values`: temperature in
[-50, 200], vibration in [0, 100], oil pressure in [0, 15], rpm in
[0, 4000], each emitting an `impossible_*` critical issue when violated,
in source order. -/
def checkImpossibleValues (d : Reading) : List QualityIssue :=
  impossibleIssue "impossible_temperature" (-50) 200 d.temperature
    ++ impossibleIssue "impossible_vibration" 0 100 d.vibration
    ++ impossibleIssue "impossible_oil_pressure" 0 15 d.oil_pressure
    ++ impossibleIssue "impossible_rpm" 0 4000 d.rpm

/-- One drift check of `_check_data_drift`: when the sensor value is
present and the profile's stats dict has a `mean` key, emit a warning
issue with confidence 0.8 when `abs(value - mean) > 3 * std`.  (The
source's `.get('std', 5.0)` default is unreachable: `std` is written
whenever `mean` is.) -/
def driftIssue (name : String) (stats : Option SensorStats) (v : Option ℚ) :
    List QualityIssue :=
  match v, stats with
  | some x, some s =>
      if |x - s.mean| > 3 * s.std then [⟨name, "warning", 8/10⟩] else []
  | _, _ => []

/-- `DataQualityMonitor._check_data_drift`: nothing without a profile for
the machine; otherwise the temperature and vibration drift checks (the
source checks only these two sensors for drift). -/
def checkDataDrift (profile : Option MachineDataProfile) (d : Reading) :
    List QualityIssue :=
  match profile with
  | none => []
  | some p =>
      driftIssue "temperature_drift" p.temperature_stats d.temperature
        ++ driftIssue "vibration_drift" p.vibration_stats d.vibration

/-- One check of `_check_missing_data_patterns`: a high-severity
`missing_sensor_data` issue when the sensor value is `None` or `0`. -/
def missingIssue (v : Option ℚ) : List QualityIssue :=
  if v = none ∨ v = some 0 then [⟨"missing_sensor_data", "high", 1⟩] else []

/-- `DataQualityMonitor._check_missing_data_patterns` over the critical
sensors `temperature`, `vibration`, `oil_pressure`, `rpm`. -/
def checkMissingDataPatterns (d : Reading) : List QualityIssue :=
  missingIssue d.temperature ++ missingIssue d.vibration
    ++ missingIssue d.oil_pressure ++ missingIssue d.rpm

/-- `DataQualityMonitor._check_sensor_correlations`: medium-severity
anomaly for rpm > 2000 with temperature < 60 (confidence 0.6), and
high-severity anomaly for temperature > 100 with oil pressure < 1.0
(confidence 0.9). -/
def checkSensorCorrelations (d : Reading) : List QualityIssue :=
  (match d.temperature, d.rpm with
   | some t, some r =>
       if r > 2000 ∧ t < 60 then [⟨"sensor_correlation_anomaly", "medium", 6/10⟩]
       else []
   | _, _ => [])
    ++ (match d.temperature, d.oil_pressure with
        | some t, some p =>
            if t > 100 ∧ p < 1 then
              [⟨"oil_pressure_temperature_anomaly", "high", 9/10⟩]
            else []
        | _, _ => [])

/-- Per-issue deduction of `_calculate_quality_score`: 25 for critical,
15 for high, 10 for medium, 5 for warning, 0 otherwise. -/
def severityDeduction (sev : String) : ℚ :=
  if sev = "critical" then 25
  else if sev = "high" then 15
  else if sev = "medium" then 10
  else if sev = "warning" then 5
  else 0

/-- `DataQualityMonitor._calculate_quality_score`: 100.0 with no issues;
otherwise 100 minus the per-issue deductions, floored at 0 by
`max(0, score)`. -/
def calculateQualityScore (issues : List QualityIssue) : ℚ :=
  if issues = [] then 100
  else max 0 (100 - (issues.map (fun i => severityDeduction i.severity)).sum)

/-- `DataQualityMonitor._update_statistics` on one sensor's stats dict:
first sample initializes mean=value, std=0, min=max=value, count=1;
afterwards count and mean follow the running update, min/max are folded
in, and std follows `abs(value - old_mean) * 0.1 + std * 0.9` **only when
the old count is > 1** (the source guards the std update with
`if count > 1`). -/
def updateStatistics (stats : Option SensorStats) (value : ℚ) : SensorStats :=
  match stats with
  | none => ⟨value, 0, value, value, 1⟩
  | some s =>
      { mean := (s.mean * s.count + value) / (s.count + 1)
        std := if s.count > 1 then |value - s.mean| * (1/10) + s.std * (9/10)
               else s.std
        smin := min s.smin value
        smax := max s.smax value
        count := s.count + 1 }

/-- `DataQualityMonitor._update_machine_profile` applied to an existing or
fresh profile: bump `sample_count` and update each present sensor's
stats. -/
def updateMachineProfile (profile : Option MachineDataProfile) (d : Reading) :
    MachineDataProfile :=
  let p := profile.getD ⟨none, none, none, none, 0⟩
  { temperature_stats :=
      match d.temperature with
      | some v => some (updateStatistics p.temperature_stats v)
      | none => p.temperature_stats
    vibration_stats :=
      match d.vibration with
      | some v => some (updateStatistics p.vibration_stats v)
      | none => p.vibration_stats
    oil_pressure_stats :=
      match d.oil_pressure with
      | some v => some (updateStatistics p.oil_pressure_stats v)
      | none => p.oil_pressure_stats
    rpm_stats :=
      match d.rpm with
      | some v => some (updateStatistics p.rpm_stats v)
      | none => p.rpm_stats
    sample_count := p.sample_count + 1 }

/-- The per-reading part of the result dict of
`DataQualityMonitor.check_telemetry_quality`: issue list and
`quality_score` (plus the profile after `_update_machine_profile`, which
the source mutates in place). -/
structure QualityReport where
  issues : List QualityIssue
  quality_score : ℚ
  profileAfter : MachineDataProfile
  deriving DecidableEq, Repr

/-- `DataQualityMonitor.check_telemetry_quality` for one machine whose
stored profile (possibly absent) is `profile`: concatenates the four
checks' issues in source order, scores them, and updates the profile. -/
def check_telemetry_quality (profile : Option MachineDataProfile) (d : Reading) :
    QualityReport :=
  let issues := checkImpossibleValues d ++ checkDataDrift profile d
    ++ checkMissingDataPatterns d ++ checkSensorCorrelations d
  ⟨issues, calculateQualityScore issues, updateMachineProfile profile d⟩

end Monitor

/-! ## ML ensemble manager (`src/core/ml_integration.py`) -/

namespace ML

/-- The prediction dict built by `MLEnsembleManager._make_ml_prediction`,
restricted to the numeric fields the claims mention. -/
structure MLPrediction where
  predicted_health_score : ℚ
  confidence : ℚ
  data_quality_score : ℚ
  deriving DecidableEq, Repr

/-- `MLEnsembleManager._make_ml_prediction`, lines 197-210: the model's
raw prediction and confidence (coming from `model.predict` /
`predict_proba` / `oob_score_`, external to this embedding) are taken as
parameters `rawPrediction` and `rawConfidence`; the quality-aware
attenuation multiplies the confidence by `quality_score / 100` exactly
when `quality_score < 80`. -/
def make_ml_prediction (rawPrediction rawConfidence quality_score : ℚ) :
    MLPrediction :=
  let confidence :=
    if quality_score < 80 then rawConfidence * (quality_score / 100)
    else rawConfidence
  ⟨rawPrediction, confidence, quality_score⟩

/-- The parts of the result dict of
`MLEnsembleManager.predict_with_ensemble` the claims mention:
`prediction_type` (`"ml_ensemble"` or `"fallback"`), `model_version`,
plus, for the theorems, the number of times `_make_ml_prediction` was
invoked and the breaker after the call. -/
structure PredictOutcome where
  prediction_type : String
  model_version : String
  predictorCalls : Nat
  breakerAfter : Breaker
  deriving DecidableEq, Repr

/-- `MLEnsembleManager.predict_with_ensemble`, lines 97-113: runs
`_make_ml_prediction` through `ml_breaker.call`; on any exception (the
breaker's OPEN fast-fail or the predictor raising) it falls back to
`fallback_prediction` with `prediction_type="fallback"` and
`model_version="rule_based_v1"`, without touching the breaker again.
`predictorRaises` models `_make_ml_prediction` raising; `currentModel`
is `self.current_model` (`"unknown"` when `None`).  The function is total:
every well-formed reading yields a `PredictOutcome`. -/
def predict_with_ensemble (b : Breaker) (now : ℚ)
    (pred : MLPrediction) (predictorRaises : Bool)
    (currentModel : Option String) : PredictOutcome :=
  let outcome : Option MLPrediction := if predictorRaises then none else some pred
  match Breaker.call b now outcome with
  | (.ok _, b') => ⟨"ml_ensemble", currentModel.getD "unknown", 1, b'⟩
  | (.funcFailed, b') => ⟨"fallback", "rule_based_v1", 1, b'⟩
  | (.openDenied, b') => ⟨"fallback", "rule_based_v1", 0, b'⟩

end ML

/-! ## Helper lemmas on the breaker step functions -/

namespace Breaker

/-- `_on_failure` from CLOSED below the threshold: stays CLOSED and
increments the failure count. -/
lemma onFailure_closed_lt (b : Breaker) (now : ℚ) (hs : b.state = .closed)
    (hlt : b.failureCount + 1 < b.failureThreshold) :
    (onFailure b now).state = .closed ∧
    (onFailure b now).failureCount = b.failureCount + 1 ∧
    (onFailure b now).failureThreshold = b.failureThreshold := by
  simp only [onFailure, hs]
  rw [if_neg (by omega)]
  exact ⟨rfl, rfl, rfl⟩

/-- `_on_failure` from CLOSED at the threshold: opens the circuit. -/
lemma onFailure_closed_ge (b : Breaker) (now : ℚ) (hs : b.state = .closed)
    (hge : b.failureCount + 1 ≥ b.failureThreshold) :
    (onFailure b now).state = .opened := by
  simp only [onFailure, hs]
  rw [if_pos (by omega)]
  rfl

/-- Iterated `_on_failure` from CLOSED with zero failures: after
`n < failureThreshold` failures the breaker is still CLOSED with
`failureCount = n` (and an unchanged threshold). -/
lemma failN_closed (b : Breaker) (now : ℚ) (hs : b.state = .closed)
    (hc : b.failureCount = 0) :
    ∀ n, n < b.failureThreshold →
      (failN b now n).state = .closed ∧ (failN b now n).failureCount = n ∧
      (failN b now n).failureThreshold = b.failureThreshold := by
  intro n
  induction n with
  | zero => intro _; exact ⟨hs, hc, rfl⟩
  | succ n ih =>
    intro h
    obtain ⟨h1, h2, h3⟩ := ih (Nat.lt_of_succ_lt h)
    have step := onFailure_closed_lt (failN b now n) now h1 (by omega)
    simp only [failN]
    exact ⟨step.1, by rw [step.2.1, h2], by rw [step.2.2, h3]⟩

/-- `_on_success` from HALF_OPEN below the success threshold: stays
HALF_OPEN and increments the success count. -/
lemma onSuccess_halfOpen_lt (b : Breaker) (hs : b.state = .halfOpen)
    (hlt : b.successCount + 1 < b.successThreshold) :
    (onSuccess b).state = .halfOpen ∧
    (onSuccess b).successCount = b.successCount + 1 ∧
    (onSuccess b).successThreshold = b.successThreshold := by
  simp only [onSuccess, hs]
  rw [if_neg (by omega)]
  exact ⟨rfl, rfl, rfl⟩

/-- `_on_success` from HALF_OPEN at the success threshold: closes the
circuit with both counters zeroed. -/
lemma onSuccess_halfOpen_ge (b : Breaker) (hs : b.state = .halfOpen)
    (hge : b.successCount + 1 ≥ b.successThreshold) :
    (onSuccess b).state = .closed ∧
    (onSuccess b).failureCount = 0 ∧ (onSuccess b).successCount = 0 := by
  simp only [onSuccess, hs]
  rw [if_pos (by omega)]
  exact ⟨rfl, rfl, rfl⟩

/-- Iterated `_on_success` from HALF_OPEN with zero successes: after
`k < successThreshold` successes the breaker is still HALF_OPEN with
`successCount = k` (and an unchanged threshold). -/
lemma succN_halfOpen (b : Breaker) (hs : b.state = .halfOpen)
    (hc : b.successCount = 0) :
    ∀ k, k < b.successThreshold →
      (succN b k).state = .halfOpen ∧ (succN b k).successCount = k ∧
      (succN b k).successThreshold = b.successThreshold := by
  intro k
  induction k with
  | zero => intro _; exact ⟨hs, hc, rfl⟩
  | succ k ih =>
    intro h
    obtain ⟨h1, h2, h3⟩ := ih (Nat.lt_of_succ_lt h)
    have step := onSuccess_halfOpen_lt (succN b k) h1 (by omega)
    simp only [succN]
    exact ⟨step.1, by rw [step.2.1, h2], by rw [step.2.2, h3]⟩

end Breaker

/-! ## Claims about the circuit breaker -/

/-- C1: from CLOSED with `failureCount = 0`, consecutive un-reset failures
leave the breaker CLOSED (with `failureCount = n`) for all
`n < failureThreshold`, the `failureThreshold`-th failure transitions it
to OPEN, and an intervening success (`_on_success` while CLOSED) resets
`failureCount` to 0 leaving the breaker CLOSED. -/
theorem claim_C1 (b : Breaker) (now : ℚ) (hs : b.state = .closed)
    (hc : b.failureCount = 0) (hth : 1 ≤ b.failureThreshold) :
    (∀ n, n < b.failureThreshold →
        (Breaker.failN b now n).state = .closed ∧
        (Breaker.failN b now n).failureCount = n) ∧
    (Breaker.failN b now b.failureThreshold).state = .opened ∧
    (∀ n, n < b.failureThreshold →
        (Breaker.onSuccess (Breaker.failN b now n)).state = .closed ∧
        (Breaker.onSuccess (Breaker.failN b now n)).failureCount = 0) := by
  refine ⟨fun n hn => ?_, ?_, fun n hn => ?_⟩
  · obtain ⟨h1, h2, _⟩ := Breaker.failN_closed b now hs hc n hn
    exact ⟨h1, h2⟩
  · obtain ⟨m, hm⟩ : ∃ m, b.failureThreshold = m + 1 := ⟨b.failureThreshold - 1, by omega⟩
    obtain ⟨h1, h2, h3⟩ := Breaker.failN_closed b now hs hc m (by omega)
    rw [hm]
    exact Breaker.onFailure_closed_ge _ now h1 (by omega)
  · obtain ⟨h1, _, _⟩ := Breaker.failN_closed b now hs hc n hn
    constructor <;> simp only [Breaker.onSuccess, h1]

/-- Witness for C1 at the `ml_model` breaker configuration
(`failure_threshold = 3`): two failures leave it CLOSED, the third opens
it. -/
theorem claim_C1_witness :
    (Breaker.failN ⟨3, 30, 2, .closed, 0, 0, none, 0, 0, 0⟩ 0 2).state = .closed ∧
    (Breaker.failN ⟨3, 30, 2, .closed, 0, 0, none, 0, 0, 0⟩ 0 3).state = .opened :=
  ⟨((claim_C1 ⟨3, 30, 2, .closed, 0, 0, none, 0, 0, 0⟩ 0 rfl rfl (by norm_num)).1
      2 (by norm_num)).1,
   (claim_C1 ⟨3, 30, 2, .closed, 0, 0, none, 0, 0, 0⟩ 0 rfl rfl (by norm_num)).2.1⟩

/-- C2: with the breaker OPEN since its last failure at time `T` and
timeout `D`, the OPEN-branch check of `call` denies every request at
`now < T + D` (leaving the state OPEN) and allows every request at
`now ≥ T + D`, transitioning the state to HALF_OPEN as a side effect. -/
theorem claim_C2 (b : Breaker) (T D now : ℚ) (hs : b.state = .opened)
    (hT : b.lastFailureTime = some T) (hD : b.timeout = D) :
    (now < T + D →
        (Breaker.allowCheck b now).1 = false ∧
        (Breaker.allowCheck b now).2.state = .opened) ∧
    (now ≥ T + D →
        (Breaker.allowCheck b now).1 = true ∧
        (Breaker.allowCheck b now).2.state = .halfOpen) := by
  constructor
  · intro h
    have hr : b.shouldAttemptReset now = false := by
      simp only [Breaker.shouldAttemptReset, hT, hD, decide_eq_false_iff_not]
      intro hle
      linarith
    simp [Breaker.allowCheck, hs, hr]
  · intro h
    have hr : b.shouldAttemptReset now = true := by
      simp only [Breaker.shouldAttemptReset, hT, hD, decide_eq_true_eq]
      linarith
    simp [Breaker.allowCheck, hs, hr]

/-- Witness for C2 at the `ml_model` breaker (timeout 30, last failure at
time 100): denied at 110, allowed (and HALF_OPEN) at 130. -/
theorem claim_C2_witness :
    ((110:ℚ) < 100 + 30 ∧
      (Breaker.allowCheck ⟨3, 30, 2, .opened, 3, 0, some 100, 4, 3, 3⟩ 110).1 = false) ∧
    ((130:ℚ) ≥ 100 + 30 ∧
      (Breaker.allowCheck ⟨3, 30, 2, .opened, 3, 0, some 100, 4, 3, 3⟩ 130).2.state
        = .halfOpen) :=
  ⟨⟨by norm_num,
    ((claim_C2 ⟨3, 30, 2, .opened, 3, 0, some 100, 4, 3, 3⟩ 100 30 110 rfl rfl rfl).1
        (by norm_num)).1⟩,
   ⟨by norm_num,
    ((claim_C2 ⟨3, 30, 2, .opened, 3, 0, some 100, 4, 3, 3⟩ 100 30 130 rfl rfl rfl).2
        (by norm_num)).2⟩⟩

/-- C3: from HALF_OPEN with `successCount = 0`, fewer than
`successThreshold` consecutive successes leave the breaker HALF_OPEN, the
`successThreshold`-th success transitions it to CLOSED with both counters
zeroed, and any single failure from HALF_OPEN transitions it to OPEN. -/
theorem claim_C3 (b : Breaker) (now : ℚ) (hs : b.state = .halfOpen)
    (hc : b.successCount = 0) (hth : 1 ≤ b.successThreshold) :
    (∀ k, k < b.successThreshold → (Breaker.succN b k).state = .halfOpen) ∧
    ((Breaker.succN b b.successThreshold).state = .closed ∧
      (Breaker.succN b b.successThreshold).failureCount = 0 ∧
      (Breaker.succN b b.successThreshold).successCount = 0) ∧
    (∀ b' : Breaker, b'.state = .halfOpen →
      (Breaker.onFailure b' now).state = .opened) := by
  refine ⟨fun k hk => (Breaker.succN_halfOpen b hs hc k hk).1, ?_, fun b' hb' => ?_⟩
  · obtain ⟨m, hm⟩ : ∃ m, b.successThreshold = m + 1 := ⟨b.successThreshold - 1, by omega⟩
    obtain ⟨h1, h2, h3⟩ := Breaker.succN_halfOpen b hs hc m (by omega)
    rw [hm]
    exact Breaker.onSuccess_halfOpen_ge _ h1 (by omega)
  · simp only [Breaker.onFailure, hb']
    rfl

/-- Witness for C3 at the `ml_model` breaker (`success_threshold = 2`):
one success keeps it HALF_OPEN, the second closes it with zeroed
counters, and a failure from HALF_OPEN opens it. -/
theorem claim_C3_witness :
    (Breaker.succN ⟨3, 30, 2, .halfOpen, 3, 0, some 100, 4, 3, 3⟩ 1).state = .halfOpen ∧
    (Breaker.succN ⟨3, 30, 2, .halfOpen, 3, 0, some 100, 4, 3, 3⟩ 2).state = .closed ∧
    (Breaker.succN ⟨3, 30, 2, .halfOpen, 3, 0, some 100, 4, 3, 3⟩ 2).failureCount = 0 ∧
    (Breaker.onFailure ⟨3, 30, 2, .halfOpen, 3, 0, some 100, 4, 3, 3⟩ 131).state
      = .opened :=
  ⟨(claim_C3 ⟨3, 30, 2, .halfOpen, 3, 0, some 100, 4, 3, 3⟩ 131 rfl rfl (by norm_num)).1
      1 (by norm_num),
   (claim_C3 ⟨3, 30, 2, .halfOpen, 3, 0, some 100, 4, 3, 3⟩ 131 rfl rfl (by norm_num)).2.1.1,
   (claim_C3 ⟨3, 30, 2, .halfOpen, 3, 0, some 100, 4, 3, 3⟩ 131 rfl rfl (by norm_num)).2.1.2.1,
   (claim_C3 ⟨3, 30, 2, .halfOpen, 3, 0, some 100, 4, 3, 3⟩ 131 rfl rfl (by norm_num)).2.2
      _ rfl⟩

/-! ## Claims about the data quality monitor -/

/-- Any issue emitted by a drift check carries the check's issue type,
severity `warning` and confidence 0.8. -/
lemma Monitor.driftIssue_mem {name : String} {st : Option SensorStats} {v : Option ℚ}
    {i : QualityIssue} (h : i ∈ Monitor.driftIssue name st v) :
    i = ⟨name, "warning", 8/10⟩ := by
  unfold Monitor.driftIssue at h
  rcases v with _ | x <;> rcases st with _ | s <;> simp at h
  exact h.2

/-- Counterexample to C5, in two parts.  First, the std = 0 skip does not
exist: for a profile with exactly one prior temperature sample
(mean = 70, std = 0), a new reading of 72 satisfies `|72 - 70| > 3 * 0`
and a `temperature_drift` warning **is** emitted.  Second, the flag-iff
property does not hold for *every* sensor: the source drift-checks only
temperature and vibration, so an oil-pressure reading of 9 against stats
with mean = 3, std = 0.1 — where `|9 - 3| > 3 * 0.1` — produces **no**
drift issue at all. -/
theorem claim_C5_counterexample :
    Monitor.checkDataDrift
        (some ⟨some ⟨70, 0, 70, 70, 1⟩, none, none, none, 1⟩)
        ⟨some 72, none, none, none, none⟩
      = [⟨"temperature_drift", "warning", 8/10⟩] ∧
    (|(9 : ℚ) - 3| > 3 * (1/10) ∧
      Monitor.checkDataDrift
          (some ⟨none, none, some ⟨3, 1/10, 3, 3, 5⟩, none, 5⟩)
          ⟨none, none, some 9, none, none⟩
        = []) := by
  refine ⟨?_, by norm_num, rfl⟩
  norm_num [Monitor.checkDataDrift, Monitor.driftIssue]

/-- C5 as amended: the drift check covers exactly the temperature and
vibration sensors — every issue `_check_data_drift` can emit is a
`temperature_drift` or a `vibration_drift` — and for each of those two
sensors, when the profile's stats are populated, a StatisticalDrift
issue (severity warning, confidence 0.8) is emitted exactly when
`|value - mean| > 3 * std`, including when std = 0, where any value
different from the mean is flagged (the check is not skipped). -/
theorem claim_C5_amended (p : MachineDataProfile) (s sv : SensorStats) (v w : ℚ)
    (d : Reading) (hp : p.temperature_stats = some s) (hd : d.temperature = some v)
    (hpv : p.vibration_stats = some sv) (hdv : d.vibration = some w) :
    ((⟨"temperature_drift", "warning", 8/10⟩ : QualityIssue)
        ∈ Monitor.checkDataDrift (some p) d ↔ |v - s.mean| > 3 * s.std) ∧
    ((⟨"vibration_drift", "warning", 8/10⟩ : QualityIssue)
        ∈ Monitor.checkDataDrift (some p) d ↔ |w - sv.mean| > 3 * sv.std) ∧
    (∀ (q : Option MachineDataProfile) (r : Reading) (i : QualityIssue),
        i ∈ Monitor.checkDataDrift q r →
        i.issue_type = "temperature_drift" ∨ i.issue_type = "vibration_drift") := by
  refine ⟨⟨fun h => ?_, fun h => ?_⟩, ⟨fun h => ?_, fun h => ?_⟩, fun q r i hi => ?_⟩
  · simp only [Monitor.checkDataDrift, List.mem_append] at h
    rcases h with h | h
    · rw [hp, hd] at h
      simp [Monitor.driftIssue] at h
      exact h
    · have := Monitor.driftIssue_mem h
      simp at this
  · simp only [Monitor.checkDataDrift, List.mem_append]
    left
    rw [hp, hd]
    simp [Monitor.driftIssue, h]
  · simp only [Monitor.checkDataDrift, List.mem_append] at h
    rcases h with h | h
    · have := Monitor.driftIssue_mem h
      simp at this
    · rw [hpv, hdv] at h
      simp [Monitor.driftIssue] at h
      exact h
  · simp only [Monitor.checkDataDrift, List.mem_append]
    right
    rw [hpv, hdv]
    simp [Monitor.driftIssue, h]
  · cases q with
    | none => simp [Monitor.checkDataDrift] at hi
    | some p' =>
      simp only [Monitor.checkDataDrift, List.mem_append] at hi
      rcases hi with hi | hi
      · exact Or.inl (by rw [Monitor.driftIssue_mem hi])
      · exact Or.inr (by rw [Monitor.driftIssue_mem hi])

/-- Witness for C5 as amended: with temperature mean = 70, std = 5, a
reading of 95 is flagged and a reading of 72 is not; with vibration
mean = 2, std = 0.5, a reading exactly at the mean is not flagged. -/
theorem claim_C5_amended_witness :
    ((⟨"temperature_drift", "warning", 8/10⟩ : QualityIssue)
        ∈ Monitor.checkDataDrift
            (some ⟨some ⟨70, 5, 60, 80, 9⟩, some ⟨2, 1/2, 1, 3, 9⟩, none, none, 9⟩)
            ⟨some 95, some 2, none, none, none⟩) ∧
    ¬ ((⟨"temperature_drift", "warning", 8/10⟩ : QualityIssue)
        ∈ Monitor.checkDataDrift
            (some ⟨some ⟨70, 5, 60, 80, 9⟩, some ⟨2, 1/2, 1, 3, 9⟩, none, none, 9⟩)
            ⟨some 72, some 2, none, none, none⟩) ∧
    ¬ ((⟨"vibration_drift", "warning", 8/10⟩ : QualityIssue)
        ∈ Monitor.checkDataDrift
            (some ⟨some ⟨70, 5, 60, 80, 9⟩, some ⟨2, 1/2, 1, 3, 9⟩, none, none, 9⟩)
            ⟨some 95, some 2, none, none, none⟩) :=
  ⟨((claim_C5_amended _ ⟨70, 5, 60, 80, 9⟩ ⟨2, 1/2, 1, 3, 9⟩ 95 2 _
        rfl rfl rfl rfl).1).mpr (by norm_num),
   fun h => by
     have := ((claim_C5_amended _ ⟨70, 5, 60, 80, 9⟩ ⟨2, 1/2, 1, 3, 9⟩ 72 2 _
         rfl rfl rfl rfl).1).mp h
     norm_num at this,
   fun h => by
     have := ((claim_C5_amended _ ⟨70, 5, 60, 80, 9⟩ ⟨2, 1/2, 1, 3, 9⟩ 95 2 _
         rfl rfl rfl rfl).2.1).mp h
     norm_num at this⟩

/-- Counterexample to C6: the second-ever sample does **not** update std
— `_update_statistics` guards the std update with `if count > 1`, and the
old count is 1 at the second sample.  After samples 70 then 80 the stored
std is 0, while the claimed recurrence gives
`0.1 * |80 - 70| + 0.9 * 0 = 1`. -/
theorem claim_C6_counterexample :
    (Monitor.updateStatistics (some ⟨70, 0, 70, 70, 1⟩) 80).std = 0 ∧
    (0 : ℚ) ≠ |80 - (70 : ℚ)| * (1/10) + 0 * (9/10) := by
  constructor
  · simp [Monitor.updateStatistics]
  · norm_num

/-- C6 as amended: the first-ever sample initializes
`mean = value, std = 0, min = max = value, count = 1`; every subsequent
sample updates `count` and `mean` by the stated recurrences, but the std
recurrence `std = 0.1*|value - mean_old| + 0.9*std_old` applies only from
the third sample on (old count > 1); the second sample leaves std
unchanged, so after two samples std is still 0. -/
theorem claim_C6_amended (v v₀ v₁ : ℚ) (s : SensorStats) :
    Monitor.updateStatistics none v = ⟨v, 0, v, v, 1⟩ ∧
    (Monitor.updateStatistics (some s) v).count = s.count + 1 ∧
    (Monitor.updateStatistics (some s) v).mean
        = (s.mean * s.count + v) / (s.count + 1) ∧
    (s.count > 1 → (Monitor.updateStatistics (some s) v).std
        = |v - s.mean| * (1/10) + s.std * (9/10)) ∧
    (s.count ≤ 1 → (Monitor.updateStatistics (some s) v).std = s.std) ∧
    (Monitor.updateStatistics (some (Monitor.updateStatistics none v₀)) v₁).std = 0 ∧
    (Monitor.updateStatistics (some (Monitor.updateStatistics none v₀)) v₁).mean
        = (v₀ + v₁) / 2 := by
  refine ⟨rfl, rfl, rfl, fun h => ?_, fun h => ?_, ?_, ?_⟩
  · simp [Monitor.updateStatistics, h]
  · simp [Monitor.updateStatistics]
    omega
  · simp [Monitor.updateStatistics]
  · simp [Monitor.updateStatistics]
    ring

/-- Witness for C6 as amended at samples 70, 80, 90: after two samples
the stored std is still 0; the third sample applies the recurrence. -/
theorem claim_C6_amended_witness :
    (Monitor.updateStatistics (some (Monitor.updateStatistics none 70)) 80).std = 0 ∧
    ((2 : Nat) > 1 ∧
      (Monitor.updateStatistics (some ⟨75, 0, 70, 80, 2⟩) 90).std
        = |90 - (75 : ℚ)| * (1/10) + 0 * (9/10)) :=
  ⟨(claim_C6_amended 0 70 80 ⟨0, 0, 0, 0, 0⟩).2.2.2.2.2.1,
   ⟨by norm_num,
    (claim_C6_amended 90 0 0 ⟨75, 0, 70, 80, 2⟩).2.2.2.1 (by norm_num)⟩⟩

/-- Each severity deduction of `_calculate_quality_score` is
nonnegative. -/
lemma Monitor.severityDeduction_nonneg (sev : String) :
    0 ≤ Monitor.severityDeduction sev := by
  unfold Monitor.severityDeduction
  repeat' split
  all_goals norm_num

/-- C10: for any reading whose temperature is 250 (outside [-50, 200])
and any stored profile, `check_telemetry_quality` includes an issue of
type `impossible_temperature` with severity `critical`, and the returned
quality score lies in [0, 100] and is at most 75 (100 minus the 25-point
critical deduction, before any further deductions, floored at 0). -/
theorem claim_C10 (profile : Option MachineDataProfile) (d : Reading)
    (ht : d.temperature = some 250) :
    (∃ i ∈ (Monitor.check_telemetry_quality profile d).issues,
        i.issue_type = "impossible_temperature" ∧ i.severity = "critical") ∧
    (Monitor.check_telemetry_quality profile d).quality_score ≤ 75 ∧
    0 ≤ (Monitor.check_telemetry_quality profile d).quality_score ∧
    (Monitor.check_telemetry_quality profile d).quality_score ≤ 100 := by
  have hmem : (⟨"impossible_temperature", "critical", 1⟩ : QualityIssue)
      ∈ (Monitor.check_telemetry_quality profile d).issues := by
    simp only [Monitor.check_telemetry_quality, Monitor.checkImpossibleValues,
      Monitor.impossibleIssue, ht, List.mem_append, List.append_assoc]
    left
    rw [if_pos (by norm_num)]
    simp
  refine ⟨⟨_, hmem, rfl, rfl⟩, ?_⟩
  have hne : (Monitor.check_telemetry_quality profile d).issues ≠ [] :=
    List.ne_nil_of_mem hmem
  have hsum : (25 : ℚ) ≤ ((Monitor.check_telemetry_quality profile d).issues.map
      (fun i => Monitor.severityDeduction i.severity)).sum := by
    have h25 : (25 : ℚ) ∈ (Monitor.check_telemetry_quality profile d).issues.map
        (fun i => Monitor.severityDeduction i.severity) := by
      refine List.mem_map.mpr ⟨_, hmem, ?_⟩
      simp [Monitor.severityDeduction]
    exact List.single_le_sum
      (fun x hx => by
        obtain ⟨i, _, hxi⟩ := List.mem_map.mp hx
        rw [← hxi]; exact Monitor.severityDeduction_nonneg _) _ h25
  have hql : (Monitor.check_telemetry_quality profile d).quality_score
      = Monitor.calculateQualityScore (Monitor.check_telemetry_quality profile d).issues :=
    rfl
  rw [hql]
  unfold Monitor.calculateQualityScore
  rw [if_neg hne]
  refine ⟨max_le (by norm_num) (by linarith), le_max_left _ _, ?_⟩
  exact max_le (by norm_num) (by linarith)

/-- Witness for C10: a reading with temperature 250 against a fresh
monitor (no profile). -/
theorem claim_C10_witness :
    (∃ i ∈ (Monitor.check_telemetry_quality none
        ⟨some 250, some 2, some 3, some 1000, some 50⟩).issues,
        i.issue_type = "impossible_temperature" ∧ i.severity = "critical") ∧
    (Monitor.check_telemetry_quality none
        ⟨some 250, some 2, some 3, some 1000, some 50⟩).quality_score ≤ 75 :=
  ⟨(claim_C10 none ⟨some 250, some 2, some 3, some 1000, some 50⟩ rfl).1,
   (claim_C10 none ⟨some 250, some 2, some 3, some 1000, some 50⟩ rfl).2.1⟩

/-- Counterexample to C7: with `failure_threshold = 1`, a single failure
from CLOSED transitions the breaker to OPEN, but `failureCount` is 1, not
0 — `_open_circuit` zeroes only `success_count`, so the counters are not
both zeroed on every transition. -/
theorem claim_C7_counterexample :
    (Breaker.onFailure ⟨1, 30, 2, .closed, 0, 0, none, 0, 0, 0⟩ 0).state = .opened ∧
    (Breaker.onFailure ⟨1, 30, 2, .closed, 0, 0, none, 0, 0, 0⟩ 0).failureCount ≠ 0 := by
  constructor
  · rfl
  · decide

/-- C7 as amended: a transition to OPEN (`_open_circuit`) zeroes only
`successCount` and leaves `failureCount` unchanged; a transition to
CLOSED (`_close_circuit`) zeroes both counters; the OPEN→HALF_OPEN
transition inside `call`'s open-branch changes neither counter. -/
theorem claim_C7_amended (b : Breaker) (now : ℚ) :
    (Breaker.openCircuit b).successCount = 0 ∧
    (Breaker.openCircuit b).failureCount = b.failureCount ∧
    (Breaker.closeCircuit b).failureCount = 0 ∧
    (Breaker.closeCircuit b).successCount = 0 ∧
    (b.state = .opened → b.shouldAttemptReset now = true →
      (Breaker.allowCheck b now).2.failureCount = b.failureCount ∧
      (Breaker.allowCheck b now).2.successCount = b.successCount) := by
  refine ⟨rfl, rfl, rfl, rfl, fun hs hr => ?_⟩
  simp only [Breaker.allowCheck, hs, if_pos rfl, hr]
  exact ⟨rfl, rfl⟩

/-- Witness for C7 as amended, at a breaker that is OPEN past its
timeout. -/
theorem claim_C7_amended_witness :
    (Breaker.openCircuit ⟨1, 30, 2, .closed, 1, 0, some 0, 1, 1, 1⟩).failureCount = 1 ∧
    (Breaker.allowCheck ⟨1, 30, 2, .opened, 1, 0, some 0, 1, 1, 1⟩ 50).2.failureCount
      = 1 :=
  ⟨(claim_C7_amended ⟨1, 30, 2, .closed, 1, 0, some 0, 1, 1, 1⟩ 50).2.1,
   ((claim_C7_amended ⟨1, 30, 2, .opened, 1, 0, some 0, 1, 1, 1⟩ 50).2.2.2.2
      rfl (by simp [Breaker.shouldAttemptReset]; norm_num)).1⟩

/-! ## Claims about the ML ensemble manager -/

/-- `_on_failure` always increments both total-failure counters by
exactly one, whatever transition it triggers. -/
lemma Breaker.onFailure_totals (b : Breaker) (now : ℚ) :
    (Breaker.onFailure b now).statsTotalFailures = b.statsTotalFailures + 1 ∧
    (Breaker.onFailure b now).totalFailures = b.totalFailures + 1 := by
  obtain ⟨ft, tmo, sth, st, fc, sc, lf, tr, tf, stf⟩ := b
  cases st <;> simp [Breaker.onFailure, Breaker.openCircuit]
  split <;> simp [Breaker.openCircuit]

/-- `_on_success` never touches the total-failure counters. -/
lemma Breaker.onSuccess_totals (b : Breaker) :
    (Breaker.onSuccess b).statsTotalFailures = b.statsTotalFailures ∧
    (Breaker.onSuccess b).totalFailures = b.totalFailures := by
  obtain ⟨ft, tmo, sth, st, fc, sc, lf, tr, tf, stf⟩ := b
  cases st <;> simp [Breaker.onSuccess, Breaker.closeCircuit]
  split <;> simp [Breaker.closeCircuit]

/-- C4: `predict_with_ensemble` is total (it returns a `PredictOutcome`
on every input — the definition itself is the totality witness), and
when the `ml_model` breaker is OPEN with its timeout not yet elapsed the
result is the fallback: `prediction_type = "fallback"`,
`model_version = "rule_based_v1"`, and `_make_ml_prediction` is invoked
zero times. -/
theorem claim_C4 (b : Breaker) (now T : ℚ) (pred : ML.MLPrediction)
    (raises : Bool) (model : Option String) (hs : b.state = .opened)
    (hT : b.lastFailureTime = some T) (hlt : now < T + b.timeout) :
    (ML.predict_with_ensemble b now pred raises model).prediction_type = "fallback" ∧
    (ML.predict_with_ensemble b now pred raises model).model_version = "rule_based_v1" ∧
    (ML.predict_with_ensemble b now pred raises model).predictorCalls = 0 := by
  have hr : b.shouldAttemptReset now = false := by
    simp only [Breaker.shouldAttemptReset, hT, decide_eq_false_iff_not]
    intro hle
    linarith
  simp [ML.predict_with_ensemble, Breaker.call, Breaker.allowCheck,
    Breaker.shouldAttemptReset, hs, hT, show ¬b.timeout ≤ now - T by linarith]

/-- Witness for C4 at the `ml_model` breaker, OPEN since time 100 with
timeout 30, queried at time 110. -/
theorem claim_C4_witness :
    (ML.predict_with_ensemble ⟨3, 30, 2, .opened, 3, 0, some 100, 4, 3, 3⟩ 110
        ⟨85, 9/10, 100⟩ false (some "rf_health_v3")).prediction_type = "fallback" ∧
    (ML.predict_with_ensemble ⟨3, 30, 2, .opened, 3, 0, some 100, 4, 3, 3⟩ 110
        ⟨85, 9/10, 100⟩ false (some "rf_health_v3")).model_version = "rule_based_v1" ∧
    (ML.predict_with_ensemble ⟨3, 30, 2, .opened, 3, 0, some 100, 4, 3, 3⟩ 110
        ⟨85, 9/10, 100⟩ false (some "rf_health_v3")).predictorCalls = 0 :=
  claim_C4 ⟨3, 30, 2, .opened, 3, 0, some 100, 4, 3, 3⟩ 110 100
    ⟨85, 9/10, 100⟩ false (some "rf_health_v3") rfl rfl (by norm_num)

/-- C8: each `predict_with_ensemble` invocation records at most one
failure on the breaker: a breaker-open fast-fail bumps the
`stats['total_failures']` counter by exactly one without invoking the
predictor or calling `call` again, a predictor exception (with the
breaker CLOSED) records exactly one failure through `_on_failure` inside
the `call` wrapper, and a successful prediction records none. -/
theorem claim_C8 (b : Breaker) (now : ℚ) (pred : ML.MLPrediction)
    (model : Option String) :
    (b.state = .opened → b.shouldAttemptReset now = false →
      ∀ raises : Bool,
        (ML.predict_with_ensemble b now pred raises model).breakerAfter.statsTotalFailures
            = b.statsTotalFailures + 1 ∧
        (ML.predict_with_ensemble b now pred raises model).predictorCalls = 0 ∧
        (ML.predict_with_ensemble b now pred raises model).breakerAfter.failureCount
            = b.failureCount) ∧
    (b.state = .closed →
      (ML.predict_with_ensemble b now pred true model).breakerAfter.statsTotalFailures
          = b.statsTotalFailures + 1 ∧
      (ML.predict_with_ensemble b now pred true model).breakerAfter.totalFailures
          = b.totalFailures + 1 ∧
      (ML.predict_with_ensemble b now pred true model).predictorCalls = 1) ∧
    (b.state = .closed →
      (ML.predict_with_ensemble b now pred false model).breakerAfter.statsTotalFailures
          = b.statsTotalFailures) := by
  refine ⟨fun hs hr raises => ?_, fun hc => ?_, fun hc => ?_⟩
  · obtain ⟨ft, tmo, sth, st, fc, sc, lf, tr, tf, stf⟩ := b
    simp only [Breaker.shouldAttemptReset] at hr
    dsimp only at hs
    subst hs
    simp [ML.predict_with_ensemble, Breaker.call, Breaker.allowCheck,
      Breaker.shouldAttemptReset, hr]
  · have hso : ¬ ({ b with totalRequests := b.totalRequests + 1 } : Breaker).state
        = .opened := by simp [hc]
    simp only [ML.predict_with_ensemble, Breaker.call, Breaker.allowCheck,
      if_neg hso, if_pos rfl]
    exact ⟨(Breaker.onFailure_totals _ now).1, (Breaker.onFailure_totals _ now).2, rfl⟩
  · have hso : ¬ ({ b with totalRequests := b.totalRequests + 1 } : Breaker).state
        = .opened := by simp [hc]
    simp only [ML.predict_with_ensemble, Breaker.call, Breaker.allowCheck,
      if_neg hso, if_pos rfl]
    exact (Breaker.onSuccess_totals _).1

/-- Witness for C8: the open fast-fail at the `ml_model` breaker inside
its timeout window, and predictor failure/success with the breaker
CLOSED. -/
theorem claim_C8_witness :
    (ML.predict_with_ensemble ⟨3, 30, 2, .opened, 3, 0, some 100, 4, 3, 3⟩ 110
        ⟨85, 9/10, 100⟩ true (some "rf_health_v3")).breakerAfter.statsTotalFailures = 4 ∧
    (ML.predict_with_ensemble ⟨3, 30, 2, .closed, 0, 0, none, 0, 0, 0⟩ 0
        ⟨85, 9/10, 100⟩ true (some "rf_health_v3")).breakerAfter.statsTotalFailures = 1 ∧
    (ML.predict_with_ensemble ⟨3, 30, 2, .closed, 0, 0, none, 0, 0, 0⟩ 0
        ⟨85, 9/10, 100⟩ false (some "rf_health_v3")).breakerAfter.statsTotalFailures = 0 := by
  refine ⟨((claim_C8 ⟨3, 30, 2, .opened, 3, 0, some 100, 4, 3, 3⟩ 110
      ⟨85, 9/10, 100⟩ (some "rf_health_v3")).1 rfl ?_ true).1,
    ((claim_C8 ⟨3, 30, 2, .closed, 0, 0, none, 0, 0, 0⟩ 0
      ⟨85, 9/10, 100⟩ (some "rf_health_v3")).2.1 rfl).1,
    ((claim_C8 ⟨3, 30, 2, .closed, 0, 0, none, 0, 0, 0⟩ 0
      ⟨85, 9/10, 100⟩ (some "rf_health_v3")).2.2 rfl)⟩
  simp [Breaker.shouldAttemptReset]
  norm_num

/-- C9: when the predictor succeeds, the quality-aware attenuation of
`_make_ml_prediction` multiplies the confidence by `score/100` exactly
when the quality score is below 80 and leaves it unchanged otherwise; at
quality score 60 with raw confidence 0.9 the returned confidence is
0.54. -/
theorem claim_C9 (rawP rawC q : ℚ) :
    (q < 80 → (ML.make_ml_prediction rawP rawC q).confidence = rawC * (q / 100)) ∧
    (q ≥ 80 → (ML.make_ml_prediction rawP rawC q).confidence = rawC) ∧
    (ML.make_ml_prediction rawP (9/10) 60).confidence = 54/100 := by
  refine ⟨fun h => ?_, fun h => ?_, ?_⟩
  · simp [ML.make_ml_prediction, if_pos h]
  · simp [ML.make_ml_prediction, if_neg (not_lt.mpr h)]
  · norm_num [ML.make_ml_prediction]

/-- Witness for C9 at quality score 60 (< 80) and raw confidence 0.9. -/
theorem claim_C9_witness :
    (60 : ℚ) < 80 ∧
    (ML.make_ml_prediction 85 (9/10) 60).confidence = (9/10) * (60 / 100) :=
  ⟨by norm_num, (claim_C9 85 (9/10) 60).1 (by norm_num)⟩

end MiningApi
